import Mathlib

/-!
Verification of the utility module `src/service/util.js` of the keyserver
repository: a shallow embedding of its stateless helper functions
(type/format predicates, the tagged-error constructor, the random hex
generator and the request-context helpers) together with proofs of the
specification's claims about them.
-/

set_option maxHeartbeats 1000000

namespace Keyserver

/-! ### JavaScript values

The predicates of the module accept arbitrary JavaScript values.  We model
the value universe by the runtime type tags that the functions distinguish:
strings (primitive strings and String objects are conflated, both satisfy
the source's `isString`), numbers (modelled as integers, with NaN as a
separate constructor since it is falsy yet a number), booleans, `null`,
`undefined`, and all other objects (always truthy). -/
inductive JSValue where
  | str (s : String)
  | num (n : Int)
  | nan
  | boolean (b : Bool)
  | null
  | undefined
  | obj
  deriving DecidableEq

/-- JavaScript `Boolean(v)` coercion: falsy values are `""`, `0`, `NaN`,
`false`, `null` and `undefined`; everything else is truthy. -/
def truthy : JSValue → Bool
  | .str s => s ≠ ""
  | .num n => n ≠ 0
  | .nan => false
  | .boolean b => b
  | .null => false
  | .undefined => false
  | .obj => true

/-! ### Type and format predicates -/

/-- Embeds `exports.isString`: `typeof data === 'string' ||
String.prototype.isPrototypeOf(data)`.  In the model both cases are the
`str` constructor. -/
def isString : JSValue → Bool
  | .str _ => true
  | _ => false

/-- Embeds `exports.isTrue`: if the value is a string, compare with the literal
`'true'`; otherwise apply `Boolean(data)`. -/
def isTrue (data : JSValue) : Bool :=
  match data with
  | .str s => s == "true"
  | v => truthy v

/-- Character class `[a-fA-F0-9]` of the key-id and fingerprint regexes. -/
def isHexChar (c : Char) : Bool :=
  ('0' ≤ c && c ≤ '9') || ('a' ≤ c && c ≤ 'f') || ('A' ≤ c && c ≤ 'F')

/-- The anchored regex `/^[a-fA-F0-9]{n}$/`: exactly `n` characters, each in
the hex class. -/
def regexTestHex (n : Nat) (s : String) : Bool :=
  s.length == n && s.data.all isHexChar

/-- Embeds `exports.isKeyId`: a string matching `/^[a-fA-F0-9]{16}$/`; `false` for
any non-string. -/
def isKeyId (data : JSValue) : Bool :=
  match data with
  | .str s => regexTestHex 16 s
  | _ => false

/-- Embeds `exports.isFingerPrint`: a string matching `/^[a-fA-F0-9]{40}$/`;
`false` for any non-string. -/
def isFingerPrint (data : JSValue) : Bool :=
  match data with
  | .str s => regexTestHex 40 s
  | _ => false

/-! ### The email regex

`/^(([^<>()[\]\\.,;:\s@\"]+(\.[^<>()[\]\\.,;:\s@\"]+)*)|(\".+\"))@((\[[0-9]{1,3}\.[0-9]{1,3}\.[0-9]{1,3}\.[0-9]{1,3}\])|(([a-zA-Z\-0-9]+\.)+[a-zA-Z]{2,}))$/`

is embedded compositionally: the local part is either a dot-separated
sequence of non-empty atoms or a quoted form, the domain is either a
bracketed IPv4 literal or dot-separated labels ending in a ≥2-letter TLD,
and the `@` may sit at any position (the quoted local form can contain
`@`, so all splits are tried, as regex backtracking does). -/

/-- The `\s` class (JavaScript whitespace; the common ASCII members). -/
def isWhitespaceChar (c : Char) : Bool :=
  c = ' ' || c = '\t' || c = '\n' || c = '\r' || c = '\x0b' || c = '\x0c'

/-- The atom class `[^<>()[\]\\.,;:\s@\"]`. -/
def isAtomChar (c : Char) : Bool :=
  !(c = '<' || c = '>' || c = '(' || c = ')' || c = '[' || c = ']' ||
    c = '\\' || c = '.' || c = ',' || c = ';' || c = ':' || c = '@' ||
    c = '"' || isWhitespaceChar c)

/-- Local part `atom(\.atom)*`: splitting on `.` leaves only non-empty atoms. -/
def isDotAtomLocal (s : String) : Bool :=
  (s.splitOn ".").all fun p => p.length > 0 && p.data.all isAtomChar

/-- The regex `.` metacharacter (anything but a line terminator). -/
def isDotChar (c : Char) : Bool :=
  !(c = '\n' || c = '\r' || c.toNat = 0x2028 || c.toNat = 0x2029)

/-- Quoted local part `\".+\"`: a quote, one or more arbitrary characters, a quote. -/
def isQuotedLocal (s : String) : Bool :=
  s.length ≥ 3 && s.front = '"' && s.back = '"' &&
    ((s.drop 1).dropRight 1).data.all isDotChar

/-- IPv4 component `[0-9]{1,3}`: one to three digits. -/
def isIpPart (s : String) : Bool :=
  1 ≤ s.length && s.length ≤ 3 && s.data.all Char.isDigit

/-- Bracketed IPv4 literal `\[[0-9]{1,3}\.[0-9]{1,3}\.[0-9]{1,3}\.[0-9]{1,3}\]`. -/
def isBracketIPv4 (s : String) : Bool :=
  s.length ≥ 2 && s.front = '[' && s.back = ']' &&
    (let parts := ((s.drop 1).dropRight 1).splitOn "."
     parts.length == 4 && parts.all isIpPart)

/-- Domain label `[a-zA-Z\-0-9]+`: a non-empty domain label. -/
def isLabel (s : String) : Bool :=
  s.length > 0 && s.data.all fun c => c.isAlpha || c.isDigit || c = '-'

/-- TLD `[a-zA-Z]{2,}`: the final component, at least two letters. -/
def isTld (s : String) : Bool :=
  s.length ≥ 2 && s.data.all Char.isAlpha

/-- Dotted domain `([a-zA-Z\-0-9]+\.)+[a-zA-Z]{2,}`: at least one label, a dot, a TLD. -/
def isDottedDomain (s : String) : Bool :=
  let parts := s.splitOn "."
  parts.length ≥ 2 && parts.dropLast.all isLabel && isTld (parts.getLastD "")

/-- All decompositions `cs = l ++ '@' :: d`, as the pairs `(l, d)`. -/
def emailSplits : List Char → List (List Char × List Char)
  | [] => []
  | c :: cs =>
    (if c = '@' then [(([] : List Char), cs)] else []) ++
      (emailSplits cs).map fun p => (c :: p.1, p.2)

/-- The whole email regex applied to a string. -/
def emailRegexTest (s : String) : Bool :=
  (emailSplits s.data).any fun p =>
    (isDotAtomLocal (String.mk p.1) || isQuotedLocal (String.mk p.1)) &&
    (isBracketIPv4 (String.mk p.2) || isDottedDomain (String.mk p.2))

/-- Embeds `exports.isEmail`: a string matching the email regex; `false` for any
non-string. -/
def isEmail (data : JSValue) : Bool :=
  match data with
  | .str s => emailRegexTest s
  | _ => false

/-! ### Error helper -/

/-- A JavaScript `Error` as `exports.throw` builds it: the message, the
`status` attribute and the `expose` flag. -/
structure JsError where
  message : String
  status : Nat
  expose : Bool
  deriving DecidableEq

/-- Embeds `exports.throw`: builds the tagged error and throws it.  Throwing is
modelled by the `Except` codomain with the uninhabited `Empty` as the
normal-return type, so the function can never return normally. -/
def throw (status : Nat) (message : String) : Except JsError Empty :=
  Except.error { message := message, status := status, expose := true }

/-! ### Secure random generator

`crypto.randomBytes` is nondeterministic, so `random` is parameterised by
the byte source; its contract (`n` bytes, each in `0..255`) appears as a
hypothesis of the theorems.  The optional argument is an `Option Nat`
(`none` = omitted), and `bytes = bytes || 16` replaces every falsy count
(omitted or `0`) by 16. -/

/-- One lowercase hex digit, as `Buffer.toString('hex')` writes it. -/
def hexDigit (n : Nat) : Char :=
  (['0', '1', '2', '3', '4'] ++ ['5', '6', '7', '8', '9'] ++
    ['a', 'b', 'c'] ++ ['d', 'e', 'f']).getD n '0'

/-- Lowercase hex encoding of a byte list, two digits per byte. -/
def bytesToHexChars : List Nat → List Char
  | [] => []
  | b :: bs => hexDigit (b / 16) :: hexDigit (b % 16) :: bytesToHexChars bs

/-- Applies `Buffer.toString('hex')` to a byte list. -/
def bytesToHex (bs : List Nat) : String :=
  String.mk (bytesToHexChars bs)

/-- Embeds `exports.random`: `bytes = bytes || 16`, then the hex encoding of
`crypto.randomBytes(bytes)` (the byte source `src`). -/
def random (src : Nat → List Nat) (bytes? : Option Nat) : String :=
  let bytes := match bytes? with
    | none => 16
    | some b => if b = 0 then 16 else b
  bytesToHex (src bytes)

/-! ### Request-context helpers

A Koa context, restricted to the capabilities the module reads: the
`secure` flag, the header map (`ctx.get` returns `''` for a missing
header), the protocol string and the host string. -/

structure Ctx where
  secure : Bool
  headers : List (String × String)
  protocol : String
  host : String

/-- Embeds `ctx.get(name)`: the header's value, or `''` when absent. -/
def Ctx.get (ctx : Ctx) (name : String) : String :=
  (ctx.headers.lookup name).getD ""

/-- Embeds `exports.checkHTTP`: `!ctx.secure && ctx.get('X-Forwarded-Proto') === 'http'`. -/
def checkHTTP (ctx : Ctx) : Bool :=
  !ctx.secure && ctx.get "X-Forwarded-Proto" == "http"

/-- Embeds `exports.checkHTTPS`: `ctx.secure || ctx.get('X-Forwarded-Proto') === 'https'`. -/
def checkHTTPS (ctx : Ctx) : Bool :=
  ctx.secure || ctx.get "X-Forwarded-Proto" == "https"

/-- The origin value object `{protocol, host}`. -/
structure Origin where
  protocol : String
  host : String
  deriving DecidableEq

/-- Embeds `exports.origin`: `https` when `checkHTTPS` holds, else the raw
protocol; the host verbatim. -/
def origin (ctx : Ctx) : Origin :=
  { protocol := if checkHTTPS ctx then "https" else ctx.protocol,
    host := ctx.host }

/-- Embeds `exports.url`: `protocol://host` plus the optional resource. -/
def url (o : Origin) (resource : Option String) : String :=
  o.protocol ++ "://" ++ o.host ++ (resource.getD "")

/-- Embeds `exports.hkpUrl`: `hkps://` or `hkp://` by `checkHTTPS`, then the host. -/
def hkpUrl (ctx : Ctx) : String :=
  (if checkHTTPS ctx then "hkps://" else "hkp://") ++ ctx.host

/-! ### Spec-side vocabulary -/

/-- The 22 hexadecimal characters, upper or lower case, as the spec
enumerates them. -/
def hexCharClass : List Char :=
  ['0', '1', '2', '3', '4'] ++ ['5', '6', '7', '8', '9'] ++
    ['a', 'b', 'c'] ++ ['d', 'e', 'f'] ++
    ['A', 'B', 'C'] ++ ['D', 'E', 'F']

/-- The 16 lowercase hexadecimal characters `[0-9a-f]`. -/
def lowerHexChars : List Char :=
  ['0', '1', '2', '3', '4'] ++ ['5', '6', '7', '8', '9'] ++
    ['a', 'b', 'c'] ++ ['d', 'e', 'f']

/-- Membership in the lowercase hex alphabet, as a boolean. -/
def isLowerHexDigit (c : Char) : Bool :=
  lowerHexChars.contains c

/-! ### Helper lemmas -/

/-- The regex character class agrees with the spec's enumeration of the 22
hex characters. -/
theorem isHexChar_mem_iff (c : Char) : isHexChar c = true ↔ c ∈ hexCharClass := by
  simp [isHexChar, hexCharClass, Char.le_def, Char.ext_iff, UInt32.le_def,
    UInt32.ext_iff, UInt32.size, BitVec.le_def, UInt32.toNat]
  omega

theorem bytesToHexChars_length (bs : List Nat) :
    (bytesToHexChars bs).length = 2 * bs.length := by
  induction bs with
  | nil => rfl
  | cons b bs ih => simp [bytesToHexChars, ih]; omega

theorem hexDigit_lower (n : Nat) (h : n < 16) : isLowerHexDigit (hexDigit n) = true := by
  revert h
  revert n
  decide

theorem bytesToHexChars_lower (bs : List Nat) (h : ∀ b ∈ bs, b < 256) :
    (bytesToHexChars bs).all isLowerHexDigit = true := by
  induction bs with
  | nil => rfl
  | cons b bs ih =>
    have hb : b < 256 := h b (by simp)
    simp only [bytesToHexChars, List.all_cons, Bool.and_eq_true]
    refine ⟨hexDigit_lower _ (by omega), hexDigit_lower _ (by omega), ?_⟩
    exact ih fun x hx => h x (by simp [hx])

/-! ### The claims -/

/-- C1: `checkHTTPS(ctx)` returns true iff the context's secure flag is set
or the value of the `X-Forwarded-Proto` header equals `"https"`. -/
theorem checkHTTPS_iff (ctx : Ctx) :
    checkHTTPS ctx = true ↔
      ctx.secure = true ∨ ctx.get "X-Forwarded-Proto" = "https" := by
  simp [checkHTTPS]

/-- C2 (counterexample): at byte count 0 the result has 32 characters, not
`2 * 0`, because `bytes || 16` replaces the falsy count 0 by the default 16
(`fun k => List.replicate k 0` is a well-formed byte source: `k` bytes,
each `0 < 256`). -/
theorem random_zero_length_counterexample :
    (random (fun k => List.replicate k 0) (some 0)).length = 32 ∧ 32 ≠ 2 * 0 := by
  decide

/-- C2 (amended): for every NONZERO byte count `n` and every byte source
honouring the `crypto.randomBytes` contract, `random(n)` is the lowercase
hex encoding of `n` random bytes: exactly `2 * n` characters, all drawn
from `[0-9a-f]`; in particular at byte count 16 the string has 32
characters. -/
theorem random_hex_length (src : Nat → List Nat)
    (hlen : ∀ n, (src n).length = n) (hbyte : ∀ n, ∀ b ∈ src n, b < 256)
    (n : Nat) (hn : n ≠ 0) :
    (random src (some n)).length = 2 * n ∧
    (random src (some n)).data.all isLowerHexDigit = true := by
  have hr : random src (some n) = bytesToHex (src n) := by
    simp [random, hn]
  rw [hr]
  refine ⟨?_, ?_⟩
  · show (bytesToHexChars (src n)).length = 2 * n
    rw [bytesToHexChars_length, hlen]
  · exact bytesToHexChars_lower (src n) (hbyte n)

/-- Witness for C2 at byte count 16 with the all-zero byte source. -/
theorem random_hex_length_witness :
    (random (fun k => List.replicate k 0) (some 16)).length = 2 * 16 ∧
    (random (fun k => List.replicate k 0) (some 16)).data.all isLowerHexDigit = true :=
  random_hex_length (fun k => List.replicate k 0) (fun n => by simp)
    (fun n b hb => by simp [List.eq_of_mem_replicate hb]) 16 (by decide)

/-- C3: `isKeyId` returns true iff the value is a string of exactly 16
hexadecimal characters (upper or lower case); anything else yields false. -/
theorem isKeyId_iff (v : JSValue) :
    isKeyId v = true ↔
      ∃ s, v = JSValue.str s ∧ s.length = 16 ∧ ∀ c ∈ s.data, c ∈ hexCharClass := by
  cases v <;>
    simp [isKeyId, regexTestHex, List.all_eq_true, isHexChar_mem_iff]

/-- C4: `isTrue` returns true iff the value is a string equal to `"true"`,
or a non-string that is truthy under `Boolean` coercion; with the spec's
sample evaluations. -/
theorem isTrue_iff :
    (∀ v, isTrue v = true ↔
      ((isString v = true ∧ v = JSValue.str "true") ∨
       (isString v = false ∧ truthy v = true))) ∧
    isTrue (JSValue.str "true") = true ∧
    isTrue (JSValue.str "false") = false ∧
    isTrue (JSValue.num 1) = true ∧
    isTrue (JSValue.num 0) = false ∧
    isTrue (JSValue.str "") = false := by
  refine ⟨fun v => ?_, by decide, by decide, by decide, by decide, by decide⟩
  cases v <;> simp [isTrue, isString, truthy]

/-- C5: the predicates are total functions of an arbitrary value (they are
plain `def`s into `Bool`, so they cannot throw), and every non-string input
yields `false` from the format predicates, while `isTrue` falls back to
`Boolean` coercion. -/
theorem predicates_total (v : JSValue) (h : isString v = false) :
    isKeyId v = false ∧ isFingerPrint v = false ∧ isEmail v = false ∧
    isTrue v = truthy v := by
  cases v <;> simp_all [isString, isKeyId, isFingerPrint, isEmail, isTrue]

/-- Witness for C5 at the non-string value `null`. -/
theorem predicates_total_witness :
    isString JSValue.null = false ∧
    (isKeyId JSValue.null = false ∧ isFingerPrint JSValue.null = false ∧
     isEmail JSValue.null = false ∧ isTrue JSValue.null = truthy JSValue.null) :=
  ⟨by decide, predicates_total JSValue.null (by decide)⟩

/-- C6: `hkpUrl` is `"hkps://" ++ host` when `checkHTTPS` holds and
`"hkp://" ++ host` otherwise, with no path appended. -/
theorem hkpUrl_spec (ctx : Ctx) :
    hkpUrl ctx =
      (if checkHTTPS ctx = true then "hkps://" ++ ctx.host
       else "hkp://" ++ ctx.host) := by
  by_cases h : checkHTTPS ctx <;> simp [hkpUrl, h]

/-- C7: `origin` yields protocol `"https"` when `checkHTTPS` holds,
otherwise the context's raw protocol, and the host verbatim. -/
theorem origin_spec (ctx : Ctx) :
    (origin ctx).protocol =
      (if checkHTTPS ctx = true then "https" else ctx.protocol) ∧
    (origin ctx).host = ctx.host := by
  by_cases h : checkHTTPS ctx <;> simp [origin, h]

/-- C8: `exports.throw` never returns normally and always raises the error
carrying the given message, the given status, and `expose = true`. -/
theorem throw_spec (status : Nat) (message : String) :
    (∀ v : Empty, Keyserver.throw status message ≠ Except.ok v) ∧
    Keyserver.throw status message =
      Except.error { message := message, status := status, expose := true } :=
  ⟨fun v => v.elim, rfl⟩

/-- C9: no context is classified both as plaintext HTTP and as HTTPS. -/
theorem checkHTTP_checkHTTPS_exclusive (ctx : Ctx) :
    (checkHTTP ctx && checkHTTPS ctx) = false := by
  cases hs : ctx.secure <;> simp [checkHTTP, checkHTTPS, hs]
  intro h
  simp [h]

/-- C10: `random` applies the 16-byte default to every falsy byte count:
`random(0)` coincides with the no-argument call and yields a 32-character
string. -/
theorem random_falsy_default (src : Nat → List Nat)
    (hlen : ∀ n, (src n).length = n) :
    random src (some 0) = random src none ∧
    (random src (some 0)).length = 32 := by
  refine ⟨rfl, ?_⟩
  show (bytesToHexChars (src 16)).length = 32
  rw [bytesToHexChars_length, hlen]

/-- Witness for C10 with the all-zero byte source. -/
theorem random_falsy_default_witness :
    random (fun k => List.replicate k 0) (some 0) =
      random (fun k => List.replicate k 0) none ∧
    (random (fun k => List.replicate k 0) (some 0)).length = 32 :=
  random_falsy_default (fun k => List.replicate k 0) (fun n => by simp)

end Keyserver
